import Mathlib

/-!
Shallow embedding of the `span_or_vector` container
(src/include/span_or_vector/span_or_vector.hpp).

The container behaves like `std::vector` but may be constructed as a span
over caller-owned memory (Borrowed mode, `is_span_ = true`).  While borrowed
it enforces the borrowed capacity ceiling `span_capacity_`; an operation
that needs more room promotes the object to vector (Owned) mode.

Modelling decisions:
* Machine addresses are `Nat`.  An `Alloc` state carries the next fresh
  address and the number of allocations performed so far; every operation
  that may allocate threads an `Alloc` value through.
* `std::vector` is the external collaborator excluded from the core; it is
  modelled by `StdVector` with the standard exact semantics used by
  mainstream implementations: `reserve` grows to exactly the requested
  capacity, `resize`/`insert` growth reallocates to
  `max (2 * size) needed` (geometric growth, which is exactly `needed`
  when growing from an empty vector), `assign` reallocates to exactly the
  range length when the range does not fit.
* The borrowed window (the caller memory `[data(), data() + span_capacity_)`)
  is carried explicitly as the list `buf`, so that writes through the span
  and re-exposure of existing caller data by widening are observable.
  In vector mode the span aliases the internal vector, so `update_span`
  keeps `buf` equal to `vec.data`.
* Debug-build assertions of the source are preconditions here; the release
  behaviour is modelled (for instance `boost::span::first(count)` with
  `count > size()` yields the widened span `(data(), count)`).
* `T()` value-initialization is `default` of an `Inhabited` instance
  (`0` for `Int`, matching value-initialized `int`).
-/

namespace SpanOrVector

/-- Allocation state: next fresh address and number of allocations made. -/
structure Alloc where
  next : Nat
  count : Nat
  deriving Repr, DecidableEq

/-- Model of the external `std::vector` collaborator: buffer address,
element contents and capacity. -/
structure StdVector (α : Type) where
  ptr : Nat
  data : List α
  cap : Nat
  deriving Repr, DecidableEq

namespace StdVector

variable {α : Type}

/-- `std::vector::size()`. -/
def size (v : StdVector α) : Nat := v.data.length

/-- A default-constructed (empty) vector: null buffer, no capacity. -/
def empty : StdVector α := { ptr := 0, data := [], cap := 0 }

/-- `std::vector::reserve(n)`: no-op when the capacity suffices, otherwise
reallocate to exactly `n` and copy the elements over. -/
def reserve (v : StdVector α) (σ : Alloc) (n : Nat) : StdVector α × Alloc :=
  if n ≤ v.cap then (v, σ)
  else ({ ptr := σ.next, data := v.data, cap := n },
        { next := σ.next + 1, count := σ.count + 1 })

/-- `std::vector::resize(n, x)`: truncate, or append copies of `x`,
reallocating with geometric growth when `n` exceeds the capacity. -/
def resize_value (v : StdVector α) (σ : Alloc) (n : Nat) (x : α) :
    StdVector α × Alloc :=
  if n ≤ v.size then ({ v with data := v.data.take n }, σ)
  else if n ≤ v.cap then
    ({ v with data := v.data ++ List.replicate (n - v.size) x }, σ)
  else
    ({ ptr := σ.next, data := v.data ++ List.replicate (n - v.size) x,
       cap := max (2 * v.size) n },
     { next := σ.next + 1, count := σ.count + 1 })

/-- `std::vector::resize(n)`: same with value-initialized elements. -/
def resize [Inhabited α] (v : StdVector α) (σ : Alloc) (n : Nat) :
    StdVector α × Alloc :=
  resize_value v σ n default

/-- `std::vector::assign(first, last)`: replace the contents, reallocating
to exactly the range length when it does not fit the capacity. -/
def assign (v : StdVector α) (σ : Alloc) (l : List α) : StdVector α × Alloc :=
  if l.length ≤ v.cap then ({ v with data := l }, σ)
  else ({ ptr := σ.next, data := l, cap := l.length },
        { next := σ.next + 1, count := σ.count + 1 })

/-- `std::vector::insert(begin() + i, ...)` inserting the elements `xs`,
with geometric growth on overflow. -/
def insert_list (v : StdVector α) (σ : Alloc) (i : Nat) (xs : List α) :
    StdVector α × Alloc :=
  if v.size + xs.length ≤ v.cap then
    ({ v with data := v.data.take i ++ xs ++ v.data.drop i }, σ)
  else
    ({ ptr := σ.next, data := v.data.take i ++ xs ++ v.data.drop i,
       cap := max (2 * v.size) (v.size + xs.length) },
     { next := σ.next + 1, count := σ.count + 1 })

/-- `std::vector::erase(begin() + i, begin() + j)`: in place, capacity kept. -/
def erase (v : StdVector α) (i j : Nat) : StdVector α :=
  { v with data := v.data.take i ++ v.data.drop j }

/-- `std::vector::shrink_to_fit()`: reallocate to exactly the size (release
the buffer entirely when empty). -/
def shrink_to_fit (v : StdVector α) (σ : Alloc) : StdVector α × Alloc :=
  if v.cap ≤ v.size then (v, σ)
  else if v.size = 0 then ({ ptr := 0, data := [], cap := 0 }, σ)
  else ({ v with ptr := σ.next, cap := v.size },
        { next := σ.next + 1, count := σ.count + 1 })

/-- `std::vector` copy assignment: reuse the buffer when the source fits
the capacity, otherwise reallocate to exactly the source size. -/
def copy_assign (dst src : StdVector α) (σ : Alloc) : StdVector α × Alloc :=
  if src.size ≤ dst.cap then ({ dst with data := src.data }, σ)
  else ({ ptr := σ.next, data := src.data, cap := src.size },
        { next := σ.next + 1, count := σ.count + 1 })

end StdVector

/-- Overwrite `xs.length` slots of `l` starting at index `i`
(the effect of writing through a pointer into a buffer). -/
def list_write {α : Type} (l : List α) (i : Nat) (xs : List α) : List α :=
  l.take i ++ xs ++ l.drop (i + xs.length)

/-- The container.  Mirrors the private bases and fields of
`span_or_vector_base`: the `std::vector` base (`vec`), the span base
(`span_ptr`, `span_len`), and the members `is_span_`, `span_capacity_`.
`buf` is the contents of the memory window the span points into:
caller memory of length `span_capacity_` in span mode, the vector buffer
(kept in sync by `update_span`) in vector mode. -/
structure span_or_vector (α : Type) where
  vec : StdVector α
  span_ptr : Nat
  span_len : Nat
  buf : List α
  is_span_ : Bool
  span_capacity_ : Nat
  deriving Repr, DecidableEq

namespace span_or_vector

variable {α : Type}

/-- `size()`: the span length (kept in sync in vector mode). -/
def size (c : span_or_vector α) : Nat := c.span_len

/-- `data()`: address of the first element of the view. -/
def data (c : span_or_vector α) : Nat := c.span_ptr

/-- `is_span()`. -/
def is_span (c : span_or_vector α) : Bool := c.is_span_

/-- `is_vector()`. -/
def is_vector (c : span_or_vector α) : Bool := !c.is_span_

/-- `capacity()`: the borrowed ceiling in span mode, the vector capacity
in vector mode. -/
def capacity (c : span_or_vector α) : Nat :=
  if c.is_span_ then c.span_capacity_ else c.vec.cap

/-- The elements visible through the view, in order. -/
def contents (c : span_or_vector α) : List α := c.buf.take c.span_len

/-- `update_span()`: leave span mode and re-synchronize the span with the
vector. -/
def update_span (c : span_or_vector α) : span_or_vector α :=
  { c with is_span_ := false, span_ptr := c.vec.ptr, span_len := c.vec.size,
           buf := c.vec.data }

/-- Writing `xs` through the span starting at view index `i`: hits the
caller buffer in span mode, the vector buffer (which the span aliases)
in vector mode. -/
def write_span (c : span_or_vector α) (i : Nat) (xs : List α) :
    span_or_vector α :=
  if c.is_span_ then { c with buf := list_write c.buf i xs }
  else update_span
    { c with vec := { c.vec with data := list_write c.vec.data i xs } }

/-- The span constructor `span_or_vector_base(first, count, alloc)`:
borrow the window `buffer` located at address `p`. -/
def mk_span (p : Nat) (buffer : List α) : span_or_vector α :=
  { vec := StdVector.empty, span_ptr := p, span_len := buffer.length,
    buf := buffer, is_span_ := true, span_capacity_ := buffer.length }

/-- Construction from a vector value: vector mode, span synchronized. -/
def mk_vector (v : StdVector α) : span_or_vector α :=
  update_span
    { vec := v, span_ptr := 0, span_len := 0, buf := [], is_span_ := false,
      span_capacity_ := 0 }

/-- The default-constructed container: an empty vector. -/
def mk_default : span_or_vector α := mk_vector StdVector.empty

/-- `switch_to_vector(capacity)`: reserve exactly `cap` in the internal
vector, copy the current view into it, and leave span mode. -/
def switch_to_vector (c : span_or_vector α) (σ : Alloc) (cap : Nat) :
    span_or_vector α × Alloc :=
  let r1 := c.vec.reserve σ cap
  let r2 := r1.1.assign r1.2 c.contents
  (update_span { c with vec := r2.1 }, r2.2)

/-- `reserve(new_cap)`. -/
def reserve (c : span_or_vector α) (σ : Alloc) (new_cap : Nat) :
    span_or_vector α × Alloc :=
  if c.is_vector then
    let r := c.vec.reserve σ new_cap
    (update_span { c with vec := r.1 }, r.2)
  else if new_cap ≤ c.span_capacity_ then (c, σ)
  else switch_to_vector c σ new_cap

/-- `shrink_to_fit()`.  In span mode only the ceiling drops to the current
size; the window beyond it becomes unreachable, so `buf` is narrowed
correspondingly. -/
def shrink_to_fit (c : span_or_vector α) (σ : Alloc) :
    span_or_vector α × Alloc :=
  if c.is_vector then
    let r := c.vec.shrink_to_fit σ
    (update_span { c with vec := r.1 }, r.2)
  else ({ c with span_capacity_ := c.size, buf := c.buf.take c.size }, σ)

/-- `resize(count)`.  In span mode within the ceiling this is
`span = span.first(count)`: only the view length changes (release
behaviour of `first` on widening). -/
def resize [Inhabited α] (c : span_or_vector α) (σ : Alloc) (count : Nat) :
    span_or_vector α × Alloc :=
  if c.is_vector then
    let r := c.vec.resize σ count
    (update_span { c with vec := r.1 }, r.2)
  else if count ≤ c.span_capacity_ then ({ c with span_len := count }, σ)
  else
    let r1 := switch_to_vector c σ count
    let r2 := r1.1.vec.resize r1.2 count
    (update_span { r1.1 with vec := r2.1 }, r2.2)

/-- `resize(count, value)`: like `resize` but newly exposed span slots are
filled with `value` (`std::fill(old_end, end(), value)`). -/
def resize_value [Inhabited α] (c : span_or_vector α) (σ : Alloc)
    (count : Nat) (x : α) : span_or_vector α × Alloc :=
  if c.is_vector then
    let r := c.vec.resize_value σ count x
    (update_span { c with vec := r.1 }, r.2)
  else if count ≤ c.size then ({ c with span_len := count }, σ)
  else if count ≤ c.span_capacity_ then
    ({ c with span_len := count,
              buf := list_write c.buf c.span_len
                       (List.replicate (count - c.span_len) x) }, σ)
  else
    let r1 := switch_to_vector c σ count
    let r2 := r1.1.vec.resize_value r1.2 count x
    (update_span { r1.1 with vec := r2.1 }, r2.2)

/-- `insert_into_span(pos, count, fill)` where the fill strategy writes the
list `xs` (`count = xs.length`) at the gap.  Returns the result and the
returned iterator as a view index. -/
def insert_into_span [Inhabited α] (c : span_or_vector α) (σ : Alloc)
    (pos : Nat) (xs : List α) : (span_or_vector α × Alloc) × Nat :=
  let count := xs.length
  let new_size := c.size + count
  if new_size ≤ c.capacity then
    let old_len := c.span_len
    let c1 : span_or_vector α := { c with span_len := new_size }
    let moved := c1.buf.take (pos + count) ++
      (c1.buf.drop pos).take (old_len - pos) ++ c1.buf.drop (old_len + count)
    ((write_span { c1 with buf := moved } pos xs, σ), pos)
  else
    let view := c.contents
    let r1 := c.vec.resize σ new_size
    let v2 := { r1.1 with
      data := list_write (list_write r1.1.data 0 (view.take pos))
                (pos + count) (view.drop pos) }
    ((write_span (update_span { c with vec := v2 }) pos xs, r1.2), pos)

/-- `insert(pos, count, value)`. -/
def insert_n [Inhabited α] (c : span_or_vector α) (σ : Alloc)
    (pos count : Nat) (x : α) : (span_or_vector α × Alloc) × Nat :=
  if c.is_vector then
    let r := c.vec.insert_list σ pos (List.replicate count x)
    ((update_span { c with vec := r.1 }, r.2), pos)
  else insert_into_span c σ pos (List.replicate count x)

/-- `insert(pos, first, last)` inserting the range `xs`. -/
def insert_range [Inhabited α] (c : span_or_vector α) (σ : Alloc)
    (pos : Nat) (xs : List α) : (span_or_vector α × Alloc) × Nat :=
  if c.is_vector then
    let r := c.vec.insert_list σ pos xs
    ((update_span { c with vec := r.1 }, r.2), pos)
  else insert_into_span c σ pos xs

/-- `emplace(pos, args...)`: one element `x` constructed from the
arguments is written into the gap. -/
def emplace [Inhabited α] (c : span_or_vector α) (σ : Alloc) (pos : Nat)
    (x : α) : (span_or_vector α × Alloc) × Nat :=
  if c.is_vector then
    let r := c.vec.insert_list σ pos [x]
    ((update_span { c with vec := r.1 }, r.2), pos)
  else insert_into_span c σ pos [x]

/-- `insert(pos, value)`, defined as `insert(pos, 1, value)`. -/
def insert_one [Inhabited α] (c : span_or_vector α) (σ : Alloc) (pos : Nat)
    (x : α) : (span_or_vector α × Alloc) × Nat :=
  insert_n c σ pos 1 x

/-- `push_back(value)`, defined as `insert(end(), value)`. -/
def push_back [Inhabited α] (c : span_or_vector α) (σ : Alloc) (x : α) :
    span_or_vector α × Alloc :=
  (insert_one c σ c.size x).1

/-- `emplace_back(args...)`, defined as `emplace(end(), args...)`. -/
def emplace_back [Inhabited α] (c : span_or_vector α) (σ : Alloc) (x : α) :
    span_or_vector α × Alloc :=
  (emplace c σ c.size x).1

/-- `erase(first, last)` with iterators given as view indices. -/
def erase [Inhabited α] (c : span_or_vector α) (σ : Alloc)
    (first last : Nat) : (span_or_vector α × Alloc) × Nat :=
  if c.is_vector then
    ((update_span { c with vec := c.vec.erase first last }, σ), first)
  else
    let n_erased := last - first
    let moved := write_span c first ((c.buf.drop last).take (c.size - last))
    (resize moved σ (c.size - n_erased), first)

/-- `erase(pos)`, defined as `erase(pos, pos + 1)`. -/
def erase_at [Inhabited α] (c : span_or_vector α) (σ : Alloc) (pos : Nat) :
    (span_or_vector α × Alloc) × Nat :=
  erase c σ pos (pos + 1)

/-- `pop_back()`, defined as `resize(size() - 1)` (precondition: nonempty;
`Nat` subtraction stands in for the unsigned arithmetic). -/
def pop_back [Inhabited α] (c : span_or_vector α) (σ : Alloc) :
    span_or_vector α × Alloc :=
  resize c σ (c.size - 1)

/-- `clear()`, defined as `resize(0)`. -/
def clear [Inhabited α] (c : span_or_vector α) (σ : Alloc) :
    span_or_vector α × Alloc :=
  resize c σ 0

/-- `assign(count, value)`. -/
def assign_n [Inhabited α] (c : span_or_vector α) (σ : Alloc) (count : Nat)
    (x : α) : span_or_vector α × Alloc :=
  if c.is_vector then
    let r := c.vec.assign σ (List.replicate count x)
    (update_span { c with vec := r.1 }, r.2)
  else
    let r := resize_value c σ count x
    (write_span r.1 0 (List.replicate count x), r.2)

/-- `assign(first, last)` assigning the range `xs`. -/
def assign_range [Inhabited α] (c : span_or_vector α) (σ : Alloc)
    (xs : List α) : span_or_vector α × Alloc :=
  if c.is_vector then
    let r := c.vec.assign σ xs
    (update_span { c with vec := r.1 }, r.2)
  else
    let r := resize c σ xs.length
    (write_span r.1 0 xs, r.2)

/-- Copy assignment `operator=(const span_or_vector_base&)` for two
distinct objects (self-assignment short-circuits in the source). -/
def copy_assign [Inhabited α] (dst src : span_or_vector α) (σ : Alloc) :
    span_or_vector α × Alloc :=
  if dst.is_span_ then
    let r0 := StdVector.copy_assign dst.vec StdVector.empty σ
    let dst1 := { dst with vec := r0.1 }
    let r1 := resize dst1 r0.2 src.size
    (write_span r1.1 0 src.contents, r1.2)
  else
    let r1 := StdVector.copy_assign dst.vec src.vec σ
    let r2 := if src.is_span_ then r1.1.assign r1.2 src.contents else r1
    (update_span { dst with vec := r2.1 }, r2.2)

/-- The copy constructor: copy assignment onto a default-constructed
object. -/
def copy_construct [Inhabited α] (src : span_or_vector α) (σ : Alloc) :
    span_or_vector α × Alloc :=
  copy_assign mk_default src σ

/-- Move assignment `operator=(span_or_vector_base&&)`: steal the vector
buffer; additionally take over the span state when the source is a span.
The source is afterwards re-synchronized over its emptied vector.
Returns (destination, source). -/
def move_assign (dst src : span_or_vector α) (σ : Alloc) :
    (span_or_vector α × span_or_vector α) × Alloc :=
  let dst1 := { dst with vec := src.vec }
  let src1 := { src with vec := StdVector.empty }
  let dst2 := if src.is_span_ then
      { dst1 with span_ptr := src.span_ptr, span_len := src.span_len,
                  buf := src.buf, span_capacity_ := src.span_capacity_,
                  is_span_ := true }
    else update_span dst1
  ((dst2, update_span src1), σ)

/-- The move constructor: move assignment onto a default-constructed
object. -/
def move_construct (src : span_or_vector α) (σ : Alloc) :
    (span_or_vector α × span_or_vector α) × Alloc :=
  let r := move_assign mk_default src σ
  ((r.1.1, r.1.2), r.2)

/-- `at(pos)`: bounds-checked access; the failure carries the attempted
index and the current size.  A `const` method: it never mutates the
container. -/
def at_ [Inhabited α] (c : span_or_vector α) (pos : Nat) :
    Except (Nat × Nat) α :=
  if c.size ≤ pos then Except.error (pos, c.size)
  else Except.ok (c.contents.getD pos default)

/-- The class invariant relating the span, the borrowed window and the
internal vector. -/
def WF (c : span_or_vector α) : Prop :=
  (c.is_span_ = true →
    c.span_len ≤ c.span_capacity_ ∧ c.buf.length = c.span_capacity_ ∧
      c.vec = StdVector.empty) ∧
  (c.is_span_ = false →
    c.span_len = c.vec.data.length ∧ c.span_ptr = c.vec.ptr ∧
      c.buf = c.vec.data ∧ c.vec.data.length ≤ c.vec.cap)

instance [DecidableEq α] (c : span_or_vector α) : Decidable (WF c) := by
  unfold WF; infer_instance

/-- All buffer addresses of `c` are below the next fresh address of `σ`
(so a fresh allocation can never coincide with them). -/
def wf_alloc (c : span_or_vector α) (σ : Alloc) : Prop :=
  c.span_ptr < σ.next ∧ c.vec.ptr < σ.next

instance (c : span_or_vector α) (σ : Alloc) : Decidable (wf_alloc c σ) := by
  unfold wf_alloc; infer_instance

/-- Scenario A of the specification: a span borrowed over the array
`[1, 2, 3]` (at address 100), then `resize(2)`. -/
def scenario_A : span_or_vector Int :=
  (resize (mk_span 100 [1, 2, 3]) { next := 200, count := 0 } 2).1

/-- Scenario B of the specification: continue from scenario A with
`push_back(6)`. -/
def scenario_B : span_or_vector Int × Alloc :=
  push_back scenario_A { next := 200, count := 0 } 6

/-- A Borrowed destination over a caller buffer `[4, 4]` at address 100. -/
def span_dst : span_or_vector Int := mk_span 100 [4, 4]

/-- An Owned source holding `[7]` in a buffer at address 50. -/
def vec_src : span_or_vector Int := mk_vector { ptr := 50, data := [7], cap := 1 }

/-- An allocation state whose fresh addresses start at 200. -/
def alloc0 : Alloc := { next := 200, count := 0 }

/-! ### Basic facts about the embedding -/

theorem contents_length (c : span_or_vector α) (hwf : WF c) :
    c.contents.length = c.size := by
  by_cases hsp : c.is_span_ = true
  · obtain ⟨h1, h2, h3⟩ := hwf.1 hsp
    simp only [contents, size, List.length_take]
    omega
  · obtain ⟨h1, h2, h3, h4⟩ := hwf.2 (by simpa using hsp)
    simp [contents, size, h3, ← h1]

theorem switch_to_vector_eq (c : span_or_vector α) (σ : Alloc) (n : Nat)
    (hwf : WF c) (hs : c.is_span_ = true) (hn : c.span_capacity_ < n) :
    switch_to_vector c σ n =
      ({ vec := { ptr := σ.next, data := c.contents, cap := n },
         span_ptr := σ.next, span_len := c.span_len, buf := c.contents,
         is_span_ := false, span_capacity_ := c.span_capacity_ },
       { next := σ.next + 1, count := σ.count + 1 }) := by
  obtain ⟨hle, hbl, hvec⟩ := hwf.1 hs
  have hcl : c.contents.length = c.span_len := contents_length c hwf
  unfold switch_to_vector
  rw [hvec]
  simp only [StdVector.reserve, StdVector.empty, StdVector.assign,
    StdVector.size, update_span]
  rw [if_neg (by omega : ¬ n ≤ 0)]
  simp only [hcl]
  rw [if_pos (by omega : c.span_len ≤ n)]
  simp [hcl]

theorem resize_span_fits [Inhabited α] (c : span_or_vector α) (σ : Alloc)
    (count : Nat) (hs : c.is_span_ = true) (h : count ≤ c.span_capacity_) :
    resize c σ count = ({ c with span_len := count }, σ) := by
  simp [resize, is_vector, hs, h]

theorem resize_promote [Inhabited α] (c : span_or_vector α) (σ : Alloc)
    (count : Nat) (hwf : WF c) (hs : c.is_span_ = true)
    (h : c.span_capacity_ < count) :
    resize c σ count =
      ({ vec := { ptr := σ.next,
                  data := c.contents ++ List.replicate (count - c.size) default,
                  cap := count },
         span_ptr := σ.next, span_len := count,
         buf := c.contents ++ List.replicate (count - c.size) default,
         is_span_ := false, span_capacity_ := c.span_capacity_ },
       { next := σ.next + 1, count := σ.count + 1 }) := by
  have hcl : c.contents.length = c.size := contents_length c hwf
  have hle : c.span_len ≤ c.span_capacity_ := (hwf.1 hs).1
  have hv : c.is_vector = false := by simp [is_vector, hs]
  unfold resize
  rw [hv]
  simp only [Bool.false_eq_true, if_false]
  rw [if_neg (by omega : ¬ count ≤ c.span_capacity_)]
  rw [switch_to_vector_eq c σ count hwf hs h]
  simp only [StdVector.resize, StdVector.resize_value, StdVector.size,
    update_span]
  rw [if_neg (by simp only [hcl]; simp only [size] at hcl ⊢; omega :
       ¬ count ≤ c.contents.length)]
  rw [if_pos (le_refl count)]
  simp only [size] at hcl ⊢
  simp [hcl]
  omega

theorem resize_value_promote [Inhabited α] (c : span_or_vector α) (σ : Alloc)
    (count : Nat) (x : α) (hwf : WF c) (hs : c.is_span_ = true)
    (h : c.span_capacity_ < count) :
    resize_value c σ count x =
      ({ vec := { ptr := σ.next,
                  data := c.contents ++ List.replicate (count - c.size) x,
                  cap := count },
         span_ptr := σ.next, span_len := count,
         buf := c.contents ++ List.replicate (count - c.size) x,
         is_span_ := false, span_capacity_ := c.span_capacity_ },
       { next := σ.next + 1, count := σ.count + 1 }) := by
  have hcl : c.contents.length = c.size := contents_length c hwf
  have hle : c.span_len ≤ c.span_capacity_ := (hwf.1 hs).1
  have hv : c.is_vector = false := by simp [is_vector, hs]
  unfold resize_value
  rw [hv]
  simp only [Bool.false_eq_true, if_false]
  rw [if_neg (by simp only [size]; omega : ¬ count ≤ c.size)]
  rw [if_neg (by omega : ¬ count ≤ c.span_capacity_)]
  rw [switch_to_vector_eq c σ count hwf hs h]
  simp only [StdVector.resize_value, StdVector.size, update_span]
  rw [if_neg (by simp only [hcl]; simp only [size] at hcl ⊢; omega :
       ¬ count ≤ c.contents.length)]
  rw [if_pos (le_refl count)]
  simp only [size] at hcl ⊢
  simp [hcl]
  omega

theorem insert_into_span_fits [Inhabited α] (c : span_or_vector α) (σ : Alloc)
    (pos : Nat) (xs : List α) (hwf : WF c) (hs : c.is_span_ = true)
    (hpos : pos ≤ c.size) (hfit : c.size + xs.length ≤ c.span_capacity_) :
    insert_into_span c σ pos xs =
      (({ c with span_len := c.size + xs.length,
                 buf := c.buf.take pos ++ xs ++
                   (c.buf.drop pos).take (c.size - pos) ++
                   c.buf.drop (c.size + xs.length) }, σ), pos) := by
  obtain ⟨hle, hbl, hvec⟩ := hwf.1 hs
  simp only [size] at hpos hfit ⊢
  have hcap : c.capacity = c.span_capacity_ := by simp [capacity, hs]
  have h1 : (c.buf.take (pos + xs.length)).length = pos + xs.length := by
    simp only [List.length_take]
    omega
  unfold insert_into_span write_span
  simp only [size, hcap, hs, if_true, if_pos hfit, list_write]
  simp only [Prod.mk.injEq, span_or_vector.mk.injEq, and_true, true_and,
    List.append_assoc]
  have htake : (c.buf.take (pos + xs.length) ++
      ((c.buf.drop pos).take (c.span_len - pos) ++
        c.buf.drop (c.span_len + xs.length))).take pos = c.buf.take pos := by
    rw [List.take_append_of_le_length (by omega : pos ≤ (c.buf.take (pos + xs.length)).length)]
    rw [List.take_take]
    rw [show min pos (pos + xs.length) = pos from by omega]
  have hdrop : (c.buf.take (pos + xs.length) ++
      ((c.buf.drop pos).take (c.span_len - pos) ++
        c.buf.drop (c.span_len + xs.length))).drop (pos + xs.length) =
      (c.buf.drop pos).take (c.span_len - pos) ++
        c.buf.drop (c.span_len + xs.length) := by
    nth_rewrite 1 [← h1]
    exact List.drop_left _ _
  rw [htake, hdrop]

theorem insert_into_span_overflow [Inhabited α] (c : span_or_vector α)
    (σ : Alloc) (pos : Nat) (xs : List α) (hwf : WF c)
    (hs : c.is_span_ = true) (hpos : pos ≤ c.size)
    (hov : c.span_capacity_ < c.size + xs.length) :
    insert_into_span c σ pos xs =
      (({ vec := { ptr := σ.next,
                   data := c.contents.take pos ++ xs ++ c.contents.drop pos,
                   cap := c.size + xs.length },
          span_ptr := σ.next,
          span_len := c.size + xs.length,
          buf := c.contents.take pos ++ xs ++ c.contents.drop pos,
          is_span_ := false, span_capacity_ := c.span_capacity_ },
        { next := σ.next + 1, count := σ.count + 1 }), pos) := by
  obtain ⟨hle, hbl, hvec⟩ := hwf.1 hs
  have hcl : c.contents.length = c.size := contents_length c hwf
  simp only [size] at hpos hov hcl ⊢
  have hcap : c.capacity = c.span_capacity_ := by simp [capacity, hs]
  have hA : (c.contents.take pos).length = pos := by
    simp only [List.length_take]
    omega
  have hD : (c.contents.drop pos).length = c.span_len - pos := by
    simp only [List.length_drop]
    omega
  unfold insert_into_span
  simp only [size, hcap]
  rw [if_neg (by omega : ¬ c.span_len + xs.length ≤ c.span_capacity_)]
  rw [hvec]
  simp only [StdVector.resize, StdVector.resize_value, StdVector.empty,
    StdVector.size, List.length_nil]
  rw [if_neg (by omega : ¬ c.span_len + xs.length ≤ 0)]
  rw [if_neg (by omega : ¬ c.span_len + xs.length ≤ 0)]
  simp only [List.nil_append, Nat.sub_zero, Nat.mul_zero, Nat.zero_max]
  have e1 : list_write (List.replicate (c.span_len + xs.length) (default : α))
      0 (c.contents.take pos) =
      c.contents.take pos ++
        List.replicate (c.span_len + xs.length - pos) default := by
    unfold list_write
    simp [List.drop_replicate, hA]
  rw [e1]
  have hside1 : (c.contents.take pos).length ≤ pos + xs.length := by
    rw [hA]
    omega
  have hside2 : (c.contents.take pos ++
      List.replicate (c.span_len + xs.length - pos) (default : α)).length ≤
      pos + xs.length + (c.span_len - pos) := by
    simp only [List.length_append, List.length_replicate, hA]
    omega
  have e2 : list_write
      (c.contents.take pos ++
        List.replicate (c.span_len + xs.length - pos) (default : α))
      (pos + xs.length) (c.contents.drop pos) =
      c.contents.take pos ++ List.replicate xs.length default ++
        c.contents.drop pos := by
    unfold list_write
    rw [List.take_append_eq_append_take, List.take_of_length_le hside1,
      hA, List.take_replicate]
    rw [show min (pos + xs.length - pos)
          (c.span_len + xs.length - pos) = xs.length from by omega]
    rw [hD, List.drop_of_length_le hside2]
    simp [List.append_assoc]
  rw [e2]
  have t1 : (c.contents.take pos ++ List.replicate xs.length (default : α) ++
      c.contents.drop pos).take pos = c.contents.take pos := by
    rw [List.append_assoc]
    rw [List.take_append_of_le_length (by rw [hA] :
      pos ≤ (c.contents.take pos).length)]
    rw [List.take_take, Nat.min_self]
  have t2 : (c.contents.take pos ++ List.replicate xs.length (default : α) ++
      c.contents.drop pos).drop (pos + xs.length) = c.contents.drop pos := by
    have hl2 : (c.contents.take pos ++
        List.replicate xs.length (default : α)).length = pos + xs.length := by
      simp [hA]
    rw [← hl2]
    exact List.drop_left _ _
  unfold write_span
  unfold update_span
  simp only [StdVector.size, Bool.false_eq_true, if_false]
  unfold list_write
  rw [t1, t2]
  simp only [Prod.mk.injEq, span_or_vector.mk.injEq, StdVector.mk.injEq,
    List.append_assoc, List.length_append, hA, hD, true_and, and_true]
  omega


theorem write_span_of_span (c : span_or_vector α) (i : Nat) (xs : List α)
    (hs : c.is_span_ = true) :
    write_span c i xs = { c with buf := list_write c.buf i xs } := by
  simp [write_span, hs]

theorem contents_of_vector (c : span_or_vector α) (hwf : WF c)
    (hv : c.is_span_ = false) : c.contents = c.vec.data := by
  obtain ⟨h1, h2, h3, h4⟩ := hwf.2 hv
  unfold contents
  rw [h3, h1, List.take_length]

theorem copy_assign_to_vector [Inhabited α] (dst src : span_or_vector α)
    (σ : Alloc) (hwf_s : WF src) (hd : dst.is_span_ = false) :
    (copy_assign dst src σ).1.is_vector = true ∧
    (copy_assign dst src σ).1.contents = src.contents ∧
    (((copy_assign dst src σ).1.data = dst.vec.ptr ∧
        src.size ≤ dst.vec.cap) ∨
      σ.next ≤ (copy_assign dst src σ).1.data) := by
  have hscl : src.contents.length = src.size := contents_length src hwf_s
  unfold copy_assign
  rw [if_neg (by simp [hd] : ¬ dst.is_span_ = true)]
  by_cases hss : src.is_span_ = true
  · have hvec_s : src.vec = StdVector.empty := (hwf_s.1 hss).2.2
    rw [hss]
    simp only [if_true, hvec_s, StdVector.copy_assign, StdVector.empty,
      StdVector.size, List.length_nil]
    rw [if_pos (Nat.zero_le _)]
    simp only [StdVector.assign]
    by_cases hfit : src.contents.length ≤ dst.vec.cap
    · rw [if_pos hfit]
      unfold update_span
      simp only [StdVector.size]
      refine ⟨by simp [is_vector], ?_, Or.inl ⟨rfl, by omega⟩⟩
      show src.contents.take src.contents.length = src.contents
      rw [List.take_length]
    · rw [if_neg hfit]
      unfold update_span
      simp only [StdVector.size]
      refine ⟨by simp [is_vector], ?_, Or.inr (le_refl _)⟩
      show src.contents.take src.contents.length = src.contents
      rw [List.take_length]
  · have hss2 : src.is_span_ = false := by simpa using hss
    have hcv : src.contents = src.vec.data := contents_of_vector src hwf_s hss2
    have hsv : src.vec.data.length = src.size := by
      rw [← hcv, hscl]
    rw [hss2]
    simp only [Bool.false_eq_true, if_false, StdVector.copy_assign,
      StdVector.size]
    by_cases hfit : src.vec.data.length ≤ dst.vec.cap
    · rw [if_pos hfit]
      unfold update_span
      simp only [StdVector.size]
      refine ⟨by simp [is_vector], ?_, Or.inl ⟨rfl, by omega⟩⟩
      show src.vec.data.take src.vec.data.length = src.contents
      rw [List.take_length, hcv]
    · rw [if_neg hfit]
      unfold update_span
      simp only [StdVector.size]
      refine ⟨by simp [is_vector], ?_, Or.inr (le_refl _)⟩
      show src.vec.data.take src.vec.data.length = src.contents
      rw [List.take_length, hcv]

/-! ### Claim theorems -/

/-- Claim C10: for every Borrowed container, `shrink_to_fit()` lowers the
borrowed ceiling to the current size: the container stays Borrowed,
`capacity() == size()`, the data pointer and the elements are unchanged,
and no allocation occurs. -/
theorem claim_C10 (c : span_or_vector α) (σ : Alloc) (hwf : WF c)
    (hs : c.is_span_ = true) :
    (shrink_to_fit c σ).1.is_span = true ∧
    (shrink_to_fit c σ).1.capacity = c.size ∧
    (shrink_to_fit c σ).1.data = c.data ∧
    (shrink_to_fit c σ).1.contents = c.contents ∧
    (shrink_to_fit c σ).2 = σ := by
  have hv : c.is_vector = false := by simp [is_vector, hs]
  unfold shrink_to_fit
  rw [hv]
  simp only [Bool.false_eq_true, if_false]
  refine ⟨?_, ?_, ?_, ?_, ?_⟩
  · simp [is_span, hs]
  · simp [capacity, hs, size]
  · rfl
  · simp [contents, size, List.take_take]
  · trivial

theorem claim_C10_witness :
    WF scenario_A ∧ scenario_A.is_span_ = true ∧
    ((shrink_to_fit scenario_A { next := 300, count := 0 }).1.is_span = true ∧
     (shrink_to_fit scenario_A { next := 300, count := 0 }).1.capacity =
       scenario_A.size ∧
     (shrink_to_fit scenario_A { next := 300, count := 0 }).1.data =
       scenario_A.data ∧
     (shrink_to_fit scenario_A { next := 300, count := 0 }).1.contents =
       scenario_A.contents ∧
     (shrink_to_fit scenario_A { next := 300, count := 0 }).2 =
       { next := 300, count := 0 }) :=
  ⟨by decide, by decide,
   claim_C10 scenario_A { next := 300, count := 0 } (by decide) (by decide)⟩

/-- Claim C4: moving from a Borrowed source (by move-assignment or
move-construction) transfers the span wholesale: the destination is
Borrowed over the same pointer with the same length, borrowed capacity
and elements, no allocation happens (the allocation state is untouched),
and the source is left as an empty Owned container. -/
theorem claim_C4 (dst src : span_or_vector α) (σ : Alloc)
    (hs : src.is_span_ = true) :
    ((move_assign dst src σ).1.1.is_span = true ∧
     (move_assign dst src σ).1.1.data = src.data ∧
     (move_assign dst src σ).1.1.size = src.size ∧
     (move_assign dst src σ).1.1.capacity = src.span_capacity_ ∧
     (move_assign dst src σ).1.1.contents = src.contents ∧
     (move_assign dst src σ).1.2.is_vector = true ∧
     (move_assign dst src σ).1.2.size = 0 ∧
     (move_assign dst src σ).2 = σ) ∧
    ((move_construct src σ).1.1.is_span = true ∧
     (move_construct src σ).1.1.data = src.data ∧
     (move_construct src σ).1.1.size = src.size ∧
     (move_construct src σ).1.1.capacity = src.span_capacity_ ∧
     (move_construct src σ).1.1.contents = src.contents ∧
     (move_construct src σ).1.2.is_vector = true ∧
     (move_construct src σ).1.2.size = 0 ∧
     (move_construct src σ).2 = σ) := by
  unfold move_construct move_assign update_span
  rw [hs]
  simp [is_span, is_vector, data, size, capacity, contents, StdVector.empty,
    StdVector.size]

theorem claim_C4_witness :
    scenario_A.is_span_ = true ∧
    (((move_assign mk_default scenario_A { next := 300, count := 2 }).1.1.is_span
        = true ∧
      (move_assign mk_default scenario_A { next := 300, count := 2 }).1.1.data =
        scenario_A.data ∧
      (move_assign mk_default scenario_A { next := 300, count := 2 }).1.1.size =
        scenario_A.size ∧
      (move_assign mk_default scenario_A
          { next := 300, count := 2 }).1.1.capacity =
        scenario_A.span_capacity_ ∧
      (move_assign mk_default scenario_A
          { next := 300, count := 2 }).1.1.contents = scenario_A.contents ∧
      (move_assign mk_default scenario_A
          { next := 300, count := 2 }).1.2.is_vector = true ∧
      (move_assign mk_default scenario_A { next := 300, count := 2 }).1.2.size =
        0 ∧
      (move_assign mk_default scenario_A { next := 300, count := 2 }).2 =
        { next := 300, count := 2 }) ∧
     ((move_construct scenario_A { next := 300, count := 2 }).1.1.is_span
        = true ∧
      (move_construct scenario_A { next := 300, count := 2 }).1.1.data =
        scenario_A.data ∧
      (move_construct scenario_A { next := 300, count := 2 }).1.1.size =
        scenario_A.size ∧
      (move_construct scenario_A { next := 300, count := 2 }).1.1.capacity =
        scenario_A.span_capacity_ ∧
      (move_construct scenario_A { next := 300, count := 2 }).1.1.contents =
        scenario_A.contents ∧
      (move_construct scenario_A { next := 300, count := 2 }).1.2.is_vector =
        true ∧
      (move_construct scenario_A { next := 300, count := 2 }).1.2.size = 0 ∧
      (move_construct scenario_A { next := 300, count := 2 }).2 =
        { next := 300, count := 2 })) :=
  ⟨by decide,
   claim_C4 mk_default scenario_A { next := 300, count := 2 } (by decide)⟩

/-- Claim C8: `at(pos)` signals an out-of-range failure carrying the
attempted index and the current size exactly when `pos >= size()`; in
particular `at(size() + k)` always fails, and when the container is
nonempty `at(size() - 1)` succeeds and returns the last element.  `at`
is a const member: the embedding gives it no way to mutate the
container. -/
theorem claim_C8 [Inhabited α] (c : span_or_vector α) (pos k : Nat)
    (hwf : WF c) :
    (c.at_ pos = Except.error (pos, c.size) ↔ c.size ≤ pos) ∧
    (c.at_ (c.size + k) = Except.error (c.size + k, c.size)) ∧
    (0 < c.size → ∃ v, c.at_ (c.size - 1) = Except.ok v ∧
      c.contents.getLast? = some v) := by
  have hcl : c.contents.length = c.size := contents_length c hwf
  refine ⟨⟨?_, ?_⟩, ?_, ?_⟩
  · intro h
    unfold at_ at h
    by_contra hlt
    rw [if_neg hlt] at h
    exact Except.noConfusion h
  · intro h
    unfold at_
    rw [if_pos h]
  · unfold at_
    rw [if_pos (Nat.le_add_right _ _)]
  · intro hpos
    refine ⟨c.contents.getD (c.size - 1) default, ?_, ?_⟩
    · unfold at_
      rw [if_neg (by omega)]
    · have hlt : c.size - 1 < c.contents.length := by omega
      rw [List.getLast?_eq_getElem?, hcl]
      rw [List.getElem?_eq_getElem hlt]
      simp [List.getD_eq_getElem?_getD, List.getElem?_eq_getElem hlt]

theorem claim_C8_witness :
    WF scenario_A ∧
    ((scenario_A.at_ 5 = Except.error (5, scenario_A.size) ↔
        scenario_A.size ≤ 5) ∧
     (scenario_A.at_ (scenario_A.size + 3) =
        Except.error (scenario_A.size + 3, scenario_A.size)) ∧
     (0 < scenario_A.size → ∃ v, scenario_A.at_ (scenario_A.size - 1) =
        Except.ok v ∧ scenario_A.contents.getLast? = some v)) :=
  ⟨by decide, claim_C8 scenario_A 5 3 (by decide)⟩

/-- Claim C5: for every Borrowed container, `erase(first, last)`,
`erase(pos)`, `pop_back()` and `clear()` leave the container Borrowed
with `capacity()` unchanged, and never allocate. -/
theorem claim_C5 [Inhabited α] (c : span_or_vector α) (σ : Alloc)
    (i j pos : Nat) (hwf : WF c) (hs : c.is_span_ = true) :
    (i ≤ j → j ≤ c.size →
      (erase c σ i j).1.1.is_span = true ∧
      (erase c σ i j).1.1.capacity = c.capacity ∧
      (erase c σ i j).1.2 = σ) ∧
    (pos < c.size →
      (erase_at c σ pos).1.1.is_span = true ∧
      (erase_at c σ pos).1.1.capacity = c.capacity ∧
      (erase_at c σ pos).1.2 = σ) ∧
    (0 < c.size →
      (pop_back c σ).1.is_span = true ∧
      (pop_back c σ).1.capacity = c.capacity ∧
      (pop_back c σ).2 = σ) ∧
    ((clear c σ).1.is_span = true ∧
     (clear c σ).1.capacity = c.capacity ∧
     (clear c σ).2 = σ) := by
  have hle : c.span_len ≤ c.span_capacity_ := (hwf.1 hs).1
  have hv : c.is_vector = false := by simp [is_vector, hs]
  have herase : ∀ i2 j2 : Nat,
      (erase c σ i2 j2).1.1.is_span = true ∧
      (erase c σ i2 j2).1.1.capacity = c.capacity ∧
      (erase c σ i2 j2).1.2 = σ := by
    intro i2 j2
    unfold erase
    rw [hv]
    simp only [Bool.false_eq_true, if_false]
    rw [write_span_of_span c i2 _ hs]
    rw [resize_span_fits
      ({ c with buf := list_write c.buf i2 ((c.buf.drop j2).take (c.size - j2)) })
      σ (c.size - (j2 - i2)) hs
      (show c.size - (j2 - i2) ≤ c.span_capacity_ from by
        simp only [size]; omega)]
    simp [is_span, hs, capacity, size]
  refine ⟨fun _ _ => herase i j, fun _ => herase pos (pos + 1), ?_, ?_⟩
  · intro hpos
    unfold pop_back
    rw [resize_span_fits c σ _ hs (by simp only [size]; omega)]
    simp [is_span, hs, capacity]
  · unfold clear
    rw [resize_span_fits c σ 0 hs (by omega)]
    simp [is_span, hs, capacity]

theorem claim_C5_witness :
    WF (mk_span 100 ([1, 2, 3, 4] : List Int)) ∧
    (mk_span 100 ([1, 2, 3, 4] : List Int)).is_span_ = true ∧
    ((1 ≤ 3 → 3 ≤ (mk_span 100 ([1, 2, 3, 4] : List Int)).size →
      (erase (mk_span 100 ([1, 2, 3, 4] : List Int)) { next := 200, count := 0 }
          1 3).1.1.is_span = true ∧
      (erase (mk_span 100 ([1, 2, 3, 4] : List Int)) { next := 200, count := 0 }
          1 3).1.1.capacity = (mk_span 100 ([1, 2, 3, 4] : List Int)).capacity ∧
      (erase (mk_span 100 ([1, 2, 3, 4] : List Int)) { next := 200, count := 0 }
          1 3).1.2 = { next := 200, count := 0 }) ∧
     (0 < (mk_span 100 ([1, 2, 3, 4] : List Int)).size →
      (erase_at (mk_span 100 ([1, 2, 3, 4] : List Int))
          { next := 200, count := 0 } 0).1.1.is_span = true ∧
      (erase_at (mk_span 100 ([1, 2, 3, 4] : List Int))
          { next := 200, count := 0 } 0).1.1.capacity =
        (mk_span 100 ([1, 2, 3, 4] : List Int)).capacity ∧
      (erase_at (mk_span 100 ([1, 2, 3, 4] : List Int))
          { next := 200, count := 0 } 0).1.2 = { next := 200, count := 0 }) ∧
     (0 < (mk_span 100 ([1, 2, 3, 4] : List Int)).size →
      (pop_back (mk_span 100 ([1, 2, 3, 4] : List Int))
          { next := 200, count := 0 }).1.is_span = true ∧
      (pop_back (mk_span 100 ([1, 2, 3, 4] : List Int))
          { next := 200, count := 0 }).1.capacity =
        (mk_span 100 ([1, 2, 3, 4] : List Int)).capacity ∧
      (pop_back (mk_span 100 ([1, 2, 3, 4] : List Int))
          { next := 200, count := 0 }).2 = { next := 200, count := 0 }) ∧
     ((clear (mk_span 100 ([1, 2, 3, 4] : List Int))
          { next := 200, count := 0 }).1.is_span = true ∧
      (clear (mk_span 100 ([1, 2, 3, 4] : List Int))
          { next := 200, count := 0 }).1.capacity =
        (mk_span 100 ([1, 2, 3, 4] : List Int)).capacity ∧
      (clear (mk_span 100 ([1, 2, 3, 4] : List Int))
          { next := 200, count := 0 }).2 = { next := 200, count := 0 })) :=
  ⟨by decide, by decide,
   claim_C5 (mk_span 100 ([1, 2, 3, 4] : List Int)) { next := 200, count := 0 }
     1 3 0 (by decide) (by decide)⟩


/-- Claim C3: for every Borrowed container with size S below the borrowed
capacity C, `resize(S + 1)` (and any growth within the ceiling, by
resize, insert, push_back, or the fill form of resize) keeps the
container Borrowed with the data pointer and the capacity unchanged; for
plain `resize` within the ceiling literally only the view length
changes. -/
theorem claim_C3 [Inhabited α] (c : span_or_vector α) (σ : Alloc)
    (n pos count : Nat) (x : α) (xs : List α) (hwf : WF c)
    (hs : c.is_span_ = true) :
    (c.size < c.span_capacity_ →
      resize c σ (c.size + 1) = ({ c with span_len := c.size + 1 }, σ)) ∧
    (n ≤ c.span_capacity_ → resize c σ n = ({ c with span_len := n }, σ)) ∧
    (pos ≤ c.size → c.size + count ≤ c.span_capacity_ →
      (insert_n c σ pos count x).1.1.is_span = true ∧
      (insert_n c σ pos count x).1.1.data = c.data ∧
      (insert_n c σ pos count x).1.1.capacity = c.capacity ∧
      (insert_n c σ pos count x).1.2 = σ) ∧
    (pos ≤ c.size → c.size + xs.length ≤ c.span_capacity_ →
      (insert_range c σ pos xs).1.1.is_span = true ∧
      (insert_range c σ pos xs).1.1.data = c.data ∧
      (insert_range c σ pos xs).1.1.capacity = c.capacity ∧
      (insert_range c σ pos xs).1.2 = σ) ∧
    (c.size < c.span_capacity_ →
      (push_back c σ x).1.is_span = true ∧
      (push_back c σ x).1.data = c.data ∧
      (push_back c σ x).1.capacity = c.capacity ∧
      (push_back c σ x).2 = σ) ∧
    (c.size ≤ n → n ≤ c.span_capacity_ →
      (resize_value c σ n x).1.is_span = true ∧
      (resize_value c σ n x).1.data = c.data ∧
      (resize_value c σ n x).1.capacity = c.capacity ∧
      (resize_value c σ n x).2 = σ) := by
  have hv : c.is_vector = false := by simp [is_vector, hs]
  refine ⟨?_, ?_, ?_, ?_, ?_, ?_⟩
  · intro h
    exact resize_span_fits c σ (c.size + 1) hs (by simp only [size] at h ⊢; omega)
  · intro h
    exact resize_span_fits c σ n hs h
  · intro hpos hfit
    unfold insert_n
    rw [hv]
    simp only [Bool.false_eq_true, if_false]
    rw [insert_into_span_fits c σ pos (List.replicate count x) hwf hs hpos
      (by simpa using hfit)]
    simp [is_span, hs, data, capacity]
  · intro hpos hfit
    unfold insert_range
    rw [hv]
    simp only [Bool.false_eq_true, if_false]
    rw [insert_into_span_fits c σ pos xs hwf hs hpos hfit]
    simp [is_span, hs, data, capacity]
  · intro h
    unfold push_back insert_one insert_n
    rw [hv]
    simp only [Bool.false_eq_true, if_false]
    rw [insert_into_span_fits c σ c.size (List.replicate 1 x) hwf hs
      (le_refl _) (by simpa using h)]
    simp [is_span, hs, data, capacity]
  · intro h1 h2
    unfold resize_value
    rw [hv]
    simp only [Bool.false_eq_true, if_false]
    by_cases hn : n ≤ c.size
    · rw [if_pos hn]
      simp [is_span, hs, data, capacity]
    · rw [if_neg hn, if_pos h2]
      simp [is_span, hs, data, capacity]

theorem claim_C3_witness :
    WF scenario_A ∧ scenario_A.is_span_ = true ∧
    ((scenario_A.size < scenario_A.span_capacity_ →
      resize scenario_A { next := 300, count := 0 } (scenario_A.size + 1) =
        ({ scenario_A with span_len := scenario_A.size + 1 },
         { next := 300, count := 0 })) ∧
     (3 ≤ scenario_A.span_capacity_ →
      resize scenario_A { next := 300, count := 0 } 3 =
        ({ scenario_A with span_len := 3 }, { next := 300, count := 0 })) ∧
     (1 ≤ scenario_A.size →
      scenario_A.size + 1 ≤ scenario_A.span_capacity_ →
      (insert_n scenario_A { next := 300, count := 0 } 1 1 9).1.1.is_span =
        true ∧
      (insert_n scenario_A { next := 300, count := 0 } 1 1 9).1.1.data =
        scenario_A.data ∧
      (insert_n scenario_A { next := 300, count := 0 } 1 1 9).1.1.capacity =
        scenario_A.capacity ∧
      (insert_n scenario_A { next := 300, count := 0 } 1 1 9).1.2 =
        { next := 300, count := 0 }) ∧
     (1 ≤ scenario_A.size →
      scenario_A.size + [9].length ≤ scenario_A.span_capacity_ →
      (insert_range scenario_A { next := 300, count := 0 } 1
          [9]).1.1.is_span = true ∧
      (insert_range scenario_A { next := 300, count := 0 } 1 [9]).1.1.data =
        scenario_A.data ∧
      (insert_range scenario_A { next := 300, count := 0 } 1
          [9]).1.1.capacity = scenario_A.capacity ∧
      (insert_range scenario_A { next := 300, count := 0 } 1 [9]).1.2 =
        { next := 300, count := 0 }) ∧
     (scenario_A.size < scenario_A.span_capacity_ →
      (push_back scenario_A { next := 300, count := 0 } 9).1.is_span = true ∧
      (push_back scenario_A { next := 300, count := 0 } 9).1.data =
        scenario_A.data ∧
      (push_back scenario_A { next := 300, count := 0 } 9).1.capacity =
        scenario_A.capacity ∧
      (push_back scenario_A { next := 300, count := 0 } 9).2 =
        { next := 300, count := 0 }) ∧
     (scenario_A.size ≤ 3 → 3 ≤ scenario_A.span_capacity_ →
      (resize_value scenario_A { next := 300, count := 0 } 3 9).1.is_span =
        true ∧
      (resize_value scenario_A { next := 300, count := 0 } 3 9).1.data =
        scenario_A.data ∧
      (resize_value scenario_A { next := 300, count := 0 } 3 9).1.capacity =
        scenario_A.capacity ∧
      (resize_value scenario_A { next := 300, count := 0 } 3 9).2 =
        { next := 300, count := 0 })) :=
  ⟨by decide, by decide,
   claim_C3 scenario_A { next := 300, count := 0 } 3 1 1 9 [9] (by decide)
     (by decide)⟩

theorem copy_assign_span_fits [Inhabited α] (dst src : span_or_vector α) (σ : Alloc)
    (hwf_d : WF dst) (hwf_s : WF src) (hd : dst.is_span_ = true)
    (hfit : src.size ≤ dst.span_capacity_) :
    (copy_assign dst src σ).1.is_span = true ∧
    (copy_assign dst src σ).1.data = dst.data ∧
    (copy_assign dst src σ).1.capacity = dst.capacity ∧
    (copy_assign dst src σ).1.buf = list_write dst.buf 0 src.contents ∧
    (copy_assign dst src σ).1.contents = src.contents ∧
    (copy_assign dst src σ).2 = σ := by
  have hscl : src.contents.length = src.size := contents_length src hwf_s
  have h2 : src.size ≤ src.contents.length := le_of_eq hscl.symm
  unfold copy_assign
  rw [if_pos hd]
  simp only [StdVector.copy_assign, StdVector.empty, StdVector.size,
    List.length_nil]
  rw [if_pos (Nat.zero_le _)]
  unfold resize
  simp only [is_vector, hd, Bool.not_true, Bool.false_eq_true, if_false]
  rw [if_pos (show src.size ≤ dst.span_capacity_ from hfit)]
  unfold write_span
  simp only [hd, if_true]
  refine ⟨by simp [is_span, hd], by trivial, by simp [capacity, hd],
    by trivial, ?_, by trivial⟩
  show (list_write dst.buf 0 src.contents).take src.size = src.contents
  simp only [list_write, List.take_zero, List.nil_append, Nat.zero_add]
  rw [List.take_append_of_le_length h2, List.take_of_length_le (le_of_eq hscl)]

/-- Claim C9: copy-assignment into a Borrowed destination whose borrowed
capacity is at least the source size keeps the destination Borrowed:
the data pointer and capacity are unchanged, the source elements are
written through the destination borrowed buffer (which is overwritten in
place), and no allocation occurs. -/
theorem claim_C9 [Inhabited α] (dst src : span_or_vector α) (σ : Alloc)
    (hwf_d : WF dst) (hwf_s : WF src) (hd : dst.is_span_ = true)
    (hfit : src.size ≤ dst.span_capacity_) :
    (copy_assign dst src σ).1.is_span = true ∧
    (copy_assign dst src σ).1.data = dst.data ∧
    (copy_assign dst src σ).1.capacity = dst.capacity ∧
    (copy_assign dst src σ).1.buf = list_write dst.buf 0 src.contents ∧
    (copy_assign dst src σ).1.contents = src.contents ∧
    (copy_assign dst src σ).2 = σ :=
  copy_assign_span_fits dst src σ hwf_d hwf_s hd hfit

theorem claim_C9_witness :
    WF (mk_span 100 ([4, 4] : List Int)) ∧
    WF (mk_vector { ptr := 50, data := [7], cap := 1 }) ∧
    (mk_span 100 ([4, 4] : List Int)).is_span_ = true ∧
    (mk_vector { ptr := 50, data := ([7] : List Int), cap := 1 }).size ≤
      (mk_span 100 ([4, 4] : List Int)).span_capacity_ ∧
    ((copy_assign (mk_span 100 ([4, 4] : List Int))
        (mk_vector { ptr := 50, data := [7], cap := 1 })
        { next := 200, count := 0 }).1.is_span = true ∧
     (copy_assign (mk_span 100 ([4, 4] : List Int))
        (mk_vector { ptr := 50, data := [7], cap := 1 })
        { next := 200, count := 0 }).1.data =
       (mk_span 100 ([4, 4] : List Int)).data ∧
     (copy_assign (mk_span 100 ([4, 4] : List Int))
        (mk_vector { ptr := 50, data := [7], cap := 1 })
        { next := 200, count := 0 }).1.capacity =
       (mk_span 100 ([4, 4] : List Int)).capacity ∧
     (copy_assign (mk_span 100 ([4, 4] : List Int))
        (mk_vector { ptr := 50, data := [7], cap := 1 })
        { next := 200, count := 0 }).1.buf =
       list_write (mk_span 100 ([4, 4] : List Int)).buf 0
         (mk_vector { ptr := 50, data := ([7] : List Int), cap := 1 }).contents ∧
     (copy_assign (mk_span 100 ([4, 4] : List Int))
        (mk_vector { ptr := 50, data := [7], cap := 1 })
        { next := 200, count := 0 }).1.contents =
       (mk_vector { ptr := 50, data := ([7] : List Int), cap := 1 }).contents ∧
     (copy_assign (mk_span 100 ([4, 4] : List Int))
        (mk_vector { ptr := 50, data := [7], cap := 1 })
        { next := 200, count := 0 }).2 = { next := 200, count := 0 }) :=
  ⟨by decide, by decide, by decide, by decide,
   claim_C9 (mk_span 100 ([4, 4] : List Int))
     (mk_vector { ptr := 50, data := [7], cap := 1 }) { next := 200, count := 0 }
     (by decide) (by decide) (by decide) (by decide)⟩


/-- Claim C1: from Borrowed mode, every mutating operation whose required
total storage exceeds the borrowed capacity C promotes the container to
Owned mode, with `capacity()` equal to the operation required total size
exactly (which for the size-changing operations resize, insert, emplace,
push_back and assign is the new size; for `reserve(n)` it is `n`, the
size staying unchanged), and with the element contents the operation
contract prescribes. -/
theorem claim_C1 [Inhabited α] (c : span_or_vector α) (σ : Alloc)
    (n pos count : Nat) (x : α) (xs : List α) (hwf : WF c)
    (hs : c.is_span_ = true) (hpos : pos ≤ c.size) :
    (c.span_capacity_ < n →
      (reserve c σ n).1.is_vector = true ∧
      (reserve c σ n).1.capacity = n ∧
      (reserve c σ n).1.size = c.size ∧
      (reserve c σ n).1.contents = c.contents) ∧
    (c.span_capacity_ < n →
      (resize c σ n).1.is_vector = true ∧
      (resize c σ n).1.capacity = n ∧
      (resize c σ n).1.size = n ∧
      (resize c σ n).1.contents =
        c.contents ++ List.replicate (n - c.size) default) ∧
    (c.span_capacity_ < n →
      (resize_value c σ n x).1.is_vector = true ∧
      (resize_value c σ n x).1.capacity = n ∧
      (resize_value c σ n x).1.size = n ∧
      (resize_value c σ n x).1.contents =
        c.contents ++ List.replicate (n - c.size) x) ∧
    (c.span_capacity_ < c.size + count →
      (insert_n c σ pos count x).1.1.is_vector = true ∧
      (insert_n c σ pos count x).1.1.capacity = c.size + count ∧
      (insert_n c σ pos count x).1.1.size = c.size + count ∧
      (insert_n c σ pos count x).1.1.contents =
        c.contents.take pos ++ List.replicate count x ++
          c.contents.drop pos) ∧
    (c.span_capacity_ < c.size + xs.length →
      (insert_range c σ pos xs).1.1.is_vector = true ∧
      (insert_range c σ pos xs).1.1.capacity = c.size + xs.length ∧
      (insert_range c σ pos xs).1.1.size = c.size + xs.length ∧
      (insert_range c σ pos xs).1.1.contents =
        c.contents.take pos ++ xs ++ c.contents.drop pos) ∧
    (c.span_capacity_ < c.size + 1 →
      (emplace c σ pos x).1.1.is_vector = true ∧
      (emplace c σ pos x).1.1.capacity = c.size + 1 ∧
      (emplace c σ pos x).1.1.size = c.size + 1 ∧
      (emplace c σ pos x).1.1.contents =
        c.contents.take pos ++ [x] ++ c.contents.drop pos) ∧
    (c.span_capacity_ < c.size + 1 →
      (push_back c σ x).1.is_vector = true ∧
      (push_back c σ x).1.capacity = c.size + 1 ∧
      (push_back c σ x).1.size = c.size + 1 ∧
      (push_back c σ x).1.contents = c.contents ++ [x]) ∧
    (c.span_capacity_ < count →
      (assign_n c σ count x).1.is_vector = true ∧
      (assign_n c σ count x).1.capacity = count ∧
      (assign_n c σ count x).1.size = count ∧
      (assign_n c σ count x).1.contents = List.replicate count x) ∧
    (c.span_capacity_ < xs.length →
      (assign_range c σ xs).1.is_vector = true ∧
      (assign_range c σ xs).1.capacity = xs.length ∧
      (assign_range c σ xs).1.size = xs.length ∧
      (assign_range c σ xs).1.contents = xs) := by
  have hv : c.is_vector = false := by simp [is_vector, hs]
  have hcl : c.contents.length = c.size := contents_length c hwf
  have hle : c.span_len ≤ c.span_capacity_ := (hwf.1 hs).1
  refine ⟨?_, ?_, ?_, ?_, ?_, ?_, ?_, ?_, ?_⟩
  · -- reserve
    intro hn
    unfold reserve
    rw [hv]
    simp only [Bool.false_eq_true, if_false]
    rw [if_neg (by omega : ¬ n ≤ c.span_capacity_)]
    rw [switch_to_vector_eq c σ n hwf hs hn]
    refine ⟨by simp [is_vector], by simp [capacity], by simp [size], ?_⟩
    show c.contents.take c.span_len = c.contents
    rw [List.take_of_length_le (by simp only [size] at hcl; omega)]
  · -- resize
    intro hn
    rw [resize_promote c σ n hwf hs hn]
    refine ⟨by simp [is_vector], by simp [capacity], by simp [size], ?_⟩
    show (c.contents ++ List.replicate (n - c.size) default).take n =
      c.contents ++ List.replicate (n - c.size) default
    rw [List.take_of_length_le (by
      simp only [List.length_append, List.length_replicate, hcl]
      simp only [size] at hcl ⊢
      omega)]
  · -- resize(count, value)
    intro hn
    rw [resize_value_promote c σ n x hwf hs hn]
    refine ⟨by simp [is_vector], by simp [capacity], by simp [size], ?_⟩
    show (c.contents ++ List.replicate (n - c.size) x).take n =
      c.contents ++ List.replicate (n - c.size) x
    rw [List.take_of_length_le (by
      simp only [List.length_append, List.length_replicate, hcl]
      simp only [size] at hcl ⊢
      omega)]
  · -- insert(pos, count, value)
    intro hn
    unfold insert_n
    rw [hv]
    simp only [Bool.false_eq_true, if_false]
    rw [insert_into_span_overflow c σ pos (List.replicate count x) hwf hs hpos
      (by simpa using hn)]
    simp only [List.length_replicate]
    refine ⟨by simp [is_vector], by simp [capacity], by simp [size], ?_⟩
    show (c.contents.take pos ++ List.replicate count x ++
        c.contents.drop pos).take (c.size + count) =
      c.contents.take pos ++ List.replicate count x ++ c.contents.drop pos
    rw [List.take_of_length_le (by
      simp only [List.length_append, List.length_replicate, List.length_take,
        List.length_drop, hcl]
      simp only [size] at hcl hpos ⊢
      omega)]
  · -- insert(pos, first, last)
    intro hn
    unfold insert_range
    rw [hv]
    simp only [Bool.false_eq_true, if_false]
    rw [insert_into_span_overflow c σ pos xs hwf hs hpos hn]
    refine ⟨by simp [is_vector], by simp [capacity], by simp [size], ?_⟩
    show (c.contents.take pos ++ xs ++
        c.contents.drop pos).take (c.size + xs.length) =
      c.contents.take pos ++ xs ++ c.contents.drop pos
    rw [List.take_of_length_le (by
      simp only [List.length_append, List.length_take, List.length_drop, hcl]
      simp only [size] at hcl hpos ⊢
      omega)]
  · -- emplace
    intro hn
    unfold emplace
    rw [hv]
    simp only [Bool.false_eq_true, if_false]
    rw [insert_into_span_overflow c σ pos [x] hwf hs hpos
      (by simpa using hn)]
    simp only [List.length_singleton]
    refine ⟨by simp [is_vector], by simp [capacity], by simp [size], ?_⟩
    show (c.contents.take pos ++ [x] ++
        c.contents.drop pos).take (c.size + 1) =
      c.contents.take pos ++ [x] ++ c.contents.drop pos
    rw [List.take_of_length_le (by
      simp only [List.length_append, List.length_take, List.length_drop,
        List.length_singleton, hcl]
      simp only [size] at hcl hpos ⊢
      omega)]
  · -- push_back
    intro hn
    unfold push_back insert_one insert_n
    rw [hv]
    simp only [Bool.false_eq_true, if_false]
    rw [insert_into_span_overflow c σ c.size (List.replicate 1 x) hwf hs
      (le_refl _) (by simpa using hn)]
    simp only [List.length_replicate, List.replicate_one]
    have htk : c.contents.take c.size = c.contents :=
      List.take_of_length_le (le_of_eq hcl)
    have hdr : c.contents.drop c.size = [] :=
      List.drop_of_length_le (le_of_eq hcl)
    refine ⟨by simp [is_vector], by simp [capacity], by simp [size], ?_⟩
    show (c.contents.take c.size ++ [x] ++
        c.contents.drop c.size).take (c.size + 1) =
      c.contents ++ [x]
    rw [htk, hdr, List.append_nil]
    rw [List.take_of_length_le (by
      simp only [List.length_append, List.length_singleton, hcl]
      omega)]
  · -- assign(count, value)
    intro hn
    unfold assign_n
    rw [hv]
    simp only [Bool.false_eq_true, if_false]
    rw [resize_value_promote c σ count x hwf hs hn]
    unfold write_span update_span
    simp only [Bool.false_eq_true, if_false, StdVector.size]
    have hlw : list_write
        (c.contents ++ List.replicate (count - c.size) x) 0
        (List.replicate count x) = List.replicate count x := by
      unfold list_write
      rw [List.take_zero, List.drop_of_length_le (by
        simp only [List.length_append, List.length_replicate, hcl,
          List.length_nil]
        simp only [size] at hcl ⊢
        omega)]
      simp
    rw [hlw]
    refine ⟨by simp [is_vector], by simp [capacity], ?_, ?_⟩
    · show (List.replicate count x).length = count
      simp
    · show (List.replicate count x).take (List.replicate count x).length =
        List.replicate count x
      rw [List.take_length]
  · -- assign(first, last)
    intro hn
    unfold assign_range
    rw [hv]
    simp only [Bool.false_eq_true, if_false]
    rw [resize_promote c σ xs.length hwf hs hn]
    unfold write_span update_span
    simp only [Bool.false_eq_true, if_false, StdVector.size]
    have hlw : list_write
        (c.contents ++ List.replicate (xs.length - c.size) default) 0 xs =
        xs := by
      unfold list_write
      rw [List.take_zero, List.drop_of_length_le (by
        simp only [List.length_append, List.length_replicate, hcl,
          List.length_nil]
        simp only [size] at hcl ⊢
        omega)]
      simp
    rw [hlw]
    refine ⟨by simp [is_vector], by simp [capacity], ?_, ?_⟩
    · show xs.length = xs.length
      rfl
    · show xs.take xs.length = xs
      rw [List.take_length]

theorem claim_C1_witness :
    WF (mk_span 100 ([5] : List Int)) ∧
    (mk_span 100 ([5] : List Int)).is_span_ = true ∧
    1 ≤ (mk_span 100 ([5] : List Int)).size ∧
    ((mk_span 100 ([5] : List Int)).span_capacity_ < 3 →
      (resize (mk_span 100 ([5] : List Int)) { next := 200, count := 3 }
          3).1.is_vector = true ∧
      (resize (mk_span 100 ([5] : List Int)) { next := 200, count := 3 }
          3).1.capacity = 3 ∧
      (resize (mk_span 100 ([5] : List Int)) { next := 200, count := 3 }
          3).1.size = 3 ∧
      (resize (mk_span 100 ([5] : List Int)) { next := 200, count := 3 }
          3).1.contents =
        (mk_span 100 ([5] : List Int)).contents ++
          List.replicate (3 - (mk_span 100 ([5] : List Int)).size)
            (default : Int)) ∧
    ((mk_span 100 ([5] : List Int)).span_capacity_ <
        (mk_span 100 ([5] : List Int)).size + 1 →
      (push_back (mk_span 100 ([5] : List Int)) { next := 200, count := 3 }
          9).1.is_vector = true ∧
      (push_back (mk_span 100 ([5] : List Int)) { next := 200, count := 3 }
          9).1.capacity = (mk_span 100 ([5] : List Int)).size + 1 ∧
      (push_back (mk_span 100 ([5] : List Int)) { next := 200, count := 3 }
          9).1.size = (mk_span 100 ([5] : List Int)).size + 1 ∧
      (push_back (mk_span 100 ([5] : List Int)) { next := 200, count := 3 }
          9).1.contents = (mk_span 100 ([5] : List Int)).contents ++ [9]) :=
  ⟨by decide, by decide, by decide,
   (claim_C1 (mk_span 100 ([5] : List Int)) { next := 200, count := 3 } 3 1 2
     9 [7, 8] (by decide) (by decide) (by decide)).2.1,
   (claim_C1 (mk_span 100 ([5] : List Int)) { next := 200, count := 3 } 3 1 2
     9 [7, 8] (by decide) (by decide) (by decide)).2.2.2.2.2.2.1⟩


/-- Claim C7 counterexample: starting from scenario A (Borrowed over
`[1, 2, 3]` resized to 2, so size 2 with borrowed capacity 3),
`push_back(6)` has new size 3, which does NOT exceed the capacity 3: the
container stays Borrowed (`is_vector` is false) and no allocation is
performed — contradicting the claim that it becomes Owned with exactly
one allocation. -/
theorem claim_C7_counterexample :
    scenario_B.1.is_vector = false ∧ scenario_B.2.count = 0 := by decide

/-- Claim C7 amended: from scenario A (Borrowed `[1, 2]` with capacity 3),
`push_back(6)` fits into the borrowed capacity exactly, so the container
stays Borrowed with contents `[1, 2, 6]` written into the caller buffer,
`capacity() == 3`, the data pointer unchanged, and zero allocations. -/
theorem claim_C7_amended :
    scenario_A.is_span = true ∧ scenario_A.contents = [1, 2] ∧
    scenario_A.capacity = 3 ∧
    scenario_B.1.is_span = true ∧ scenario_B.1.contents = [1, 2, 6] ∧
    scenario_B.1.capacity = 3 ∧ scenario_B.1.data = scenario_A.data ∧
    scenario_B.2.count = 0 := by decide

/-- Claim C6 counterexample: a Borrowed container over the buffer `[5, 9]`
narrowed to size 1 and then widened back by the single-argument
`resize(2)` re-exposes the existing buffer element 9 in the newly exposed
slot: the slot is not value-initialized (for `Int` value-initialization
is 0). -/
theorem claim_C6_counterexample :
    (resize ((resize (mk_span 7 ([5, 9] : List Int))
        { next := 200, count := 0 } 1).1) { next := 200, count := 0 }
        2).1.contents = [5, 9] ∧
    (resize ((resize (mk_span 7 ([5, 9] : List Int))
        { next := 200, count := 0 } 1).1) { next := 200, count := 0 }
        2).1.contents.getD 1 default ≠ (default : Int) := by decide

/-- Claim C6 amended: for a Borrowed container and `n` within the borrowed
capacity, `resize(n)` narrows or widens the view in place; slots within
the old length keep their previous values, but on widening the
single-argument form leaves the newly exposed slots holding the borrowed
buffer existing contents (they are NOT value-initialized); only the
two-argument form `resize(n, fill_value)` fills them with `fill_value`. -/
theorem claim_C6_amended [Inhabited α] (c : span_or_vector α) (σ : Alloc)
    (n : Nat) (x : α) (hwf : WF c) (hs : c.is_span_ = true) :
    (n ≤ c.span_capacity_ →
      (resize c σ n).1.is_span = true ∧
      (resize c σ n).1.data = c.data ∧
      (resize c σ n).1.contents = c.buf.take n) ∧
    (n ≤ c.size → (resize c σ n).1.contents = c.contents.take n) ∧
    (c.size ≤ n → n ≤ c.span_capacity_ →
      (resize c σ n).1.contents =
        c.contents ++ (c.buf.drop c.size).take (n - c.size)) ∧
    (c.size ≤ n → n ≤ c.span_capacity_ →
      (resize_value c σ n x).1.is_span = true ∧
      (resize_value c σ n x).1.contents =
        c.contents ++ List.replicate (n - c.size) x) ∧
    (n ≤ c.size → (resize_value c σ n x).1.contents = c.contents.take n) := by
  have hv : c.is_vector = false := by simp [is_vector, hs]
  have hle : c.span_len ≤ c.span_capacity_ := (hwf.1 hs).1
  have hbl : c.buf.length = c.span_capacity_ := (hwf.1 hs).2.1
  refine ⟨?_, ?_, ?_, ?_, ?_⟩
  · intro hn
    rw [resize_span_fits c σ n hs hn]
    exact ⟨by simp [is_span, hs], rfl, rfl⟩
  · intro hn
    rw [resize_span_fits c σ n hs (by simp only [size] at hn; omega)]
    show c.buf.take n = (c.buf.take c.span_len).take n
    rw [List.take_take]
    rw [show min n c.span_len = n from by simp only [size] at hn; omega]
  · intro h1 h2
    rw [resize_span_fits c σ n hs h2]
    show c.buf.take n = c.buf.take c.span_len ++
      (c.buf.drop c.size).take (n - c.size)
    simp only [size]
    conv_lhs => rw [show n = c.span_len + (n - c.span_len) from by
      simp only [size] at h1; omega]
    rw [List.take_add]
  · intro h1 h2
    unfold resize_value
    rw [hv]
    simp only [Bool.false_eq_true, if_false]
    by_cases hn : n ≤ c.size
    · rw [if_pos hn]
      have heq : n = c.size := by simp only [size] at h1 hn ⊢; omega
      subst heq
      refine ⟨by simp [is_span, hs], ?_⟩
      show c.buf.take c.size = c.contents ++ List.replicate (c.size - c.size) x
      simp [contents, size]
    · rw [if_neg hn, if_pos h2]
      refine ⟨by simp [is_span, hs], ?_⟩
      show (list_write c.buf c.span_len
          (List.replicate (n - c.span_len) x)).take n =
        c.contents ++ List.replicate (n - c.size) x
      have hAR : (c.buf.take c.span_len ++
          List.replicate (n - c.span_len) x).length = n := by
        simp only [List.length_append, List.length_take,
          List.length_replicate]
        simp only [size] at h1
        omega
      unfold list_write
      rw [List.take_append_eq_append_take]
      rw [List.take_of_length_le (le_of_eq hAR), hAR, Nat.sub_self,
        List.take_zero, List.append_nil]
      simp only [contents, size]
  · intro hn
    unfold resize_value
    rw [hv]
    simp only [Bool.false_eq_true, if_false]
    rw [if_pos (by simp only [size] at hn ⊢; omega : n ≤ c.size)]
    show c.buf.take n = (c.buf.take c.span_len).take n
    rw [List.take_take]
    rw [show min n c.span_len = n from by simp only [size] at hn; omega]


theorem claim_C6_witness :
    WF ((resize (mk_span 7 ([5, 9] : List Int))
      { next := 200, count := 0 } 1).1) ∧
    ((resize (mk_span 7 ([5, 9] : List Int))
      { next := 200, count := 0 } 1).1).is_span_ = true ∧
    (((resize (mk_span 7 ([5, 9] : List Int))
        { next := 200, count := 0 } 1).1).size ≤ 2 →
     2 ≤ ((resize (mk_span 7 ([5, 9] : List Int))
        { next := 200, count := 0 } 1).1).span_capacity_ →
     (resize ((resize (mk_span 7 ([5, 9] : List Int))
        { next := 200, count := 0 } 1).1) { next := 200, count := 0 }
        2).1.contents =
       ((resize (mk_span 7 ([5, 9] : List Int))
          { next := 200, count := 0 } 1).1).contents ++
         (((resize (mk_span 7 ([5, 9] : List Int))
            { next := 200, count := 0 } 1).1).buf.drop
              ((resize (mk_span 7 ([5, 9] : List Int))
                { next := 200, count := 0 } 1).1).size).take
           (2 - ((resize (mk_span 7 ([5, 9] : List Int))
              { next := 200, count := 0 } 1).1).size)) ∧
    (((resize (mk_span 7 ([5, 9] : List Int))
        { next := 200, count := 0 } 1).1).size ≤ 2 →
     2 ≤ ((resize (mk_span 7 ([5, 9] : List Int))
        { next := 200, count := 0 } 1).1).span_capacity_ →
     (resize_value ((resize (mk_span 7 ([5, 9] : List Int))
        { next := 200, count := 0 } 1).1) { next := 200, count := 0 } 2
        4).1.is_span = true ∧
     (resize_value ((resize (mk_span 7 ([5, 9] : List Int))
        { next := 200, count := 0 } 1).1) { next := 200, count := 0 } 2
        4).1.contents =
       ((resize (mk_span 7 ([5, 9] : List Int))
          { next := 200, count := 0 } 1).1).contents ++
         List.replicate (2 - ((resize (mk_span 7 ([5, 9] : List Int))
            { next := 200, count := 0 } 1).1).size) 4) :=
  ⟨by decide, by decide,
   (claim_C6_amended ((resize (mk_span 7 ([5, 9] : List Int))
      { next := 200, count := 0 } 1).1) { next := 200, count := 0 } 2 4
      (by decide) (by decide)).2.2.1,
   (claim_C6_amended ((resize (mk_span 7 ([5, 9] : List Int))
      { next := 200, count := 0 } 1).1) { next := 200, count := 0 } 2 4
      (by decide) (by decide)).2.2.2.1⟩


/-- Claim C2 counterexample: copy-assignment from an Owned source holding
`[7]` (size 1 > 0) into a Borrowed destination with borrowed capacity 2
leaves the destination Borrowed (`is_vector` is false), contradicting the
claim that copy-assignment always produces an Owned destination. -/
theorem claim_C2_counterexample :
    0 < vec_src.size ∧
    (copy_assign span_dst vec_src alloc0).1.is_vector = false := by decide

/-- Claim C2 amended: copy-construction always yields an Owned destination
with freshly allocated memory, element-wise equal to the source, whose
data pointer differs from the source pointer when the source is nonempty.
Copy-assignment always leaves the destination element-wise equal to the
source and never aliasing the source buffer, and yields an Owned
destination EXCEPT when the destination is Borrowed with borrowed
capacity at least the source size, in which case the destination stays
Borrowed over its own caller buffer. -/
theorem claim_C2_amended [Inhabited α] (dst src : span_or_vector α)
    (σ : Alloc) (hwf_d : WF dst) (hwf_s : WF src) (ha_s : wf_alloc src σ)
    (hne : dst.data ≠ src.data) (hsz : 0 < src.size) :
    ((copy_construct src σ).1.is_vector = true ∧
     (copy_construct src σ).1.contents = src.contents ∧
     (copy_construct src σ).1.data ≠ src.data) ∧
    ((copy_assign dst src σ).1.contents = src.contents ∧
     (copy_assign dst src σ).1.data ≠ src.data ∧
     (dst.is_span_ = true → src.size ≤ dst.span_capacity_ →
       (copy_assign dst src σ).1.is_span = true ∧
       (copy_assign dst src σ).1.data = dst.data) ∧
     (dst.is_span_ = true → dst.span_capacity_ < src.size →
       (copy_assign dst src σ).1.is_vector = true) ∧
     (dst.is_span_ = false →
       (copy_assign dst src σ).1.is_vector = true)) := by
  have hscl : src.contents.length = src.size := contents_length src hwf_s
  have hsp : src.span_ptr < σ.next := ha_s.1
  constructor
  · -- copy construction: copy assignment onto the default empty Owned object
    obtain ⟨h1, h2, h3⟩ := copy_assign_to_vector mk_default src σ hwf_s rfl
    refine ⟨h1, h2, ?_⟩
    rcases h3 with ⟨hp, hcap⟩ | hfresh
    · have hcap0 : (mk_default : span_or_vector α).vec.cap = 0 := rfl
      rw [hcap0] at hcap
      omega
    · show (copy_assign mk_default src σ).1.data ≠ src.data
      simp only [data] at hfresh ⊢
      omega
  · by_cases hd : dst.is_span_ = true
    · by_cases hfit : src.size ≤ dst.span_capacity_
      · obtain ⟨h1, h2, h3, h4, h5, h6⟩ :=
          copy_assign_span_fits dst src σ hwf_d hwf_s hd hfit
        refine ⟨h5, ?_, fun _ _ => ⟨h1, h2⟩,
          fun _ hcap => absurd hfit (by simp only [size] at hcap ⊢; omega),
          fun hdf => by simp [hdf] at hd⟩
        rw [h2]
        exact hne
      · have hvec_d : dst.vec = StdVector.empty := (hwf_d.1 hd).2.2
        have hwf1 : WF ({ dst with vec := { dst.vec with data := [] } }) := by
          constructor
          · intro h
            refine ⟨(hwf_d.1 hd).1, (hwf_d.1 hd).2.1, ?_⟩
            rw [hvec_d]
            rfl
          · intro h
            exact absurd h (by simp [hd])
        have hcld : ({ dst with vec := { dst.vec with data := [] } } :
            span_or_vector α).contents.length = dst.span_len := by
          have := contents_length _ hwf1
          simpa [size] using this
        unfold copy_assign
        rw [if_pos hd]
        simp only [StdVector.copy_assign, StdVector.empty, StdVector.size,
          List.length_nil]
        rw [if_pos (Nat.zero_le _)]
        rw [resize_promote ({ dst with vec := { dst.vec with data := [] } })
          σ src.size hwf1 hd (by
            simp only [size] at hfit ⊢
            omega)]
        unfold write_span update_span
        simp only [Bool.false_eq_true, if_false, StdVector.size]
        have hlw : list_write
            (({ dst with vec := { dst.vec with data := [] } } :
                span_or_vector α).contents ++
              List.replicate (src.size -
                ({ dst with vec := { dst.vec with data := [] } } :
                  span_or_vector α).size) default) 0 src.contents =
            src.contents := by
          unfold list_write
          rw [List.take_zero, List.drop_of_length_le (by
            simp only [List.length_append, List.length_replicate, hscl,
              List.length_nil, hcld]
            have hle2 : dst.span_len ≤ dst.span_capacity_ := (hwf_d.1 hd).1
            simp only [size] at hfit ⊢
            omega)]
          simp
        rw [hlw]
        refine ⟨?_, ?_, fun _ hf => absurd hf hfit,
          fun _ _ => by simp [is_vector],
          fun hdf => by simp [hdf] at hd⟩
        · show src.contents.take src.contents.length = src.contents
          rw [List.take_length]
        · show σ.next ≠ src.data
          simp only [data]
          omega
    · have hd2 : dst.is_span_ = false := by simpa using hd
      obtain ⟨h1, h2, h3⟩ := copy_assign_to_vector dst src σ hwf_s hd2
      have hdp : dst.span_ptr = dst.vec.ptr := (hwf_d.2 hd2).2.1
      refine ⟨h2, ?_, fun hds => absurd hds hd,
        fun hds => absurd hds hd, fun _ => h1⟩
      rcases h3 with ⟨hp, _⟩ | hfresh
      · rw [hp]
        simp only [data] at hne ⊢
        rw [← hdp]
        exact hne
      · simp only [data] at hfresh ⊢
        omega

theorem claim_C2_witness :
    WF span_dst ∧ WF vec_src ∧ wf_alloc vec_src alloc0 ∧
    span_dst.data ≠ vec_src.data ∧ 0 < vec_src.size ∧
    ((copy_construct vec_src alloc0).1.is_vector = true ∧
     (copy_construct vec_src alloc0).1.contents = vec_src.contents ∧
     (copy_construct vec_src alloc0).1.data ≠ vec_src.data) ∧
    (span_dst.is_span_ = true → vec_src.size ≤ span_dst.span_capacity_ →
     (copy_assign span_dst vec_src alloc0).1.is_span = true ∧
     (copy_assign span_dst vec_src alloc0).1.data = span_dst.data) :=
  ⟨by decide, by decide, by decide, by decide, by decide,
   (claim_C2_amended span_dst vec_src alloc0 (by decide) (by decide)
     (by decide) (by decide) (by decide)).1,
   (claim_C2_amended span_dst vec_src alloc0 (by decide) (by decide)
     (by decide) (by decide) (by decide)).2.2.2.1⟩

end span_or_vector

end SpanOrVector
